import Mathlib

/-!
Verification of the Netrun LLM policy-enforcement and telemetry core
(`packages/netrun-llm/netrun/llm/policies.py` and
`packages/netrun-llm/netrun/llm/telemetry.py`).

Money amounts, latencies and wall-clock instants are embedded as rationals,
UTC dates as integers (day ordinals), token counts as naturals.  Stateful
methods become explicit state-passing functions; raising a typed exception
becomes returning an error value together with the state as mutated up to the
raise point.
-/

namespace Netrun

/-- Cost tiers for model classification (`CostTier` in policies.py). -/
inductive CostTier
  | free
  | low
  | medium
  | high
  | premium
deriving DecidableEq

/-- Position of a tier in `tier_order = [FREE, LOW, MEDIUM, HIGH, PREMIUM]`
(`PolicyEnforcer._tier_exceeds_limit`). -/
def tierIndex : CostTier → Nat
  | .free => 0
  | .low => 1
  | .medium => 2
  | .high => 3
  | .premium => 4

/-- `PolicyEnforcer._tier_exceeds_limit`: the model tier's index is strictly
greater than the limit tier's index. -/
def tierExceedsLimit (modelTier limitTier : CostTier) : Bool :=
  tierIndex limitTier < tierIndex modelTier

/-- The `MODEL_COSTS` table: cost per 1K tokens (input, output) in USD. -/
def modelCosts : String → Option (ℚ × ℚ)
  | "gpt-4o-mini" => some (15/100000, 6/10000)
  | "gpt-4o" => some (25/10000, 1/100)
  | "gpt-4-turbo" => some (1/100, 3/100)
  | "gpt-4" => some (3/100, 6/100)
  | "o1-preview" => some (15/1000, 6/100)
  | "o1-mini" => some (3/1000, 12/1000)
  | "gpt-3.5-turbo" => some (5/10000, 15/10000)
  | "claude-3-haiku" => some (25/100000, 125/100000)
  | "claude-3-5-haiku" => some (8/10000, 4/1000)
  | "claude-3-5-sonnet" => some (3/1000, 15/1000)
  | "claude-3-sonnet" => some (3/1000, 15/1000)
  | "claude-3-opus" => some (15/1000, 75/1000)
  | "claude-sonnet-4-5-20250929" => some (3/1000, 15/1000)
  | "claude-opus-4-5-20251101" => some (15/1000, 75/1000)
  | "azure-gpt-4o-mini" => some (15/100000, 6/10000)
  | "azure-gpt-4o" => some (25/10000, 1/100)
  | "azure-gpt-4" => some (3/100, 6/100)
  | "llama3.2" => some (0, 0)
  | "llama3" => some (0, 0)
  | "mistral" => some (0, 0)
  | "codellama" => some (0, 0)
  | "phi3" => some (0, 0)
  | "gemma" => some (0, 0)
  | _ => none

/-- The `MODEL_COST_TIERS` table: model identifier to cost tier. -/
def modelCostTiers : String → Option CostTier
  | "llama3.2" => some .free
  | "llama3" => some .free
  | "mistral" => some .free
  | "codellama" => some .free
  | "phi3" => some .free
  | "gemma" => some .free
  | "gpt-4o-mini" => some .low
  | "gpt-3.5-turbo" => some .low
  | "claude-3-haiku" => some .low
  | "claude-3-5-haiku" => some .low
  | "azure-gpt-4o-mini" => some .low
  | "gpt-4o" => some .medium
  | "claude-3-5-sonnet" => some .medium
  | "claude-3-sonnet" => some .medium
  | "claude-sonnet-4-5-20250929" => some .medium
  | "azure-gpt-4o" => some .medium
  | "gpt-4-turbo" => some .high
  | "gpt-4" => some .high
  | "claude-3-opus" => some .high
  | "claude-opus-4-5-20251101" => some .high
  | "azure-gpt-4" => some .high
  | "o1-preview" => some .premium
  | "o1-mini" => some .premium
  | _ => none

/-- Policy configuration for an LLM provider (`ProviderPolicy` in
policies.py), with the pydantic field defaults. -/
structure ProviderPolicy where
  provider : String
  allowed_models : List String := []
  denied_models : List String := []
  max_tokens_per_request : Nat := 4096
  max_cost_per_request : ℚ := 1
  rate_limit_rpm : Nat := 60
  rate_limit_tpm : Nat := 100000
  cost_tier_limit : Option CostTier := none
  require_reason : Bool := false
  enabled : Bool := true
deriving DecidableEq

/-- Tenant-specific policies (`TenantPolicy` in policies.py), with the
pydantic field defaults.  `provider_policies` is the dict as an association
list. -/
structure TenantPolicy where
  tenant_id : String
  monthly_budget_usd : ℚ := 100
  daily_budget_usd : Option ℚ := none
  provider_policies : List (String × ProviderPolicy) := []
  default_provider : String := "openai"
  fallback_to_local : Bool := true
  track_usage : Bool := true
  alert_threshold_pct : ℚ := 80
deriving DecidableEq

/-- `self.policy.provider_policies.get(provider, ProviderPolicy(provider=provider))`
in `validate_request`. -/
def lookupProviderPolicy (policy : TenantPolicy) (provider : String) : ProviderPolicy :=
  match policy.provider_policies.lookup provider with
  | some pp => pp
  | none => { provider := provider }

/-- Python `int()` on a nonnegative-or-negative rational: truncation toward
zero (`q.num` and `q.den` are coprime, `q.den > 0`). -/
def pyInt (q : ℚ) : ℤ :=
  q.num.tdiv q.den

/-- `PolicyEnforcer.estimate_cost` with an explicit `input_ratio` argument. -/
def estimateCostRatio (model : String) (tokens : Nat) (ratio : ℚ) : ℚ :=
  match modelCosts model with
  | none => 0
  | some (inputCost, outputCost) =>
    let inputTokens : ℤ := pyInt ((tokens : ℚ) * ratio)
    let outputTokens : ℤ := (tokens : ℤ) - inputTokens
    ((inputTokens : ℚ) * inputCost + (outputTokens : ℚ) * outputCost) / 1000

/-- `PolicyEnforcer.estimate_cost` at the default `input_ratio = 0.7`. -/
def estimateCost (model : String) (tokens : Nat) : ℚ :=
  estimateCostRatio model tokens (7/10)

/-- A usage record (`UsageRecord` in policies.py).  The `timestamp` (wall
clock at recording time) is an explicit rational instant. -/
structure UsageRecord where
  timestamp : ℚ
  tenant_id : String
  provider : String
  model : String
  tokens_input : Nat
  tokens_output : Nat
  tokens_total : Nat
  cost_usd : ℚ
  latency_ms : ℚ
  success : Bool
  reason : Option String := none
deriving DecidableEq

/-- Per-provider sliding-window rate-limit state
(`PolicyEnforcer._rate_limit_state[provider]`): the `"requests"` list of
timestamps and the `"tokens"` list of (timestamp, token count) pairs. -/
structure RateWindow where
  requests : List ℚ := []
  tokens : List (ℚ × Nat) := []
deriving DecidableEq

/-- The mutable state of a `PolicyEnforcer`: spend counters, the date of the
last daily reset, the usage records and the rate-limit windows (a provider
absent from the Python dict is the freshly initialized empty window). -/
structure EnforcerState where
  monthlySpend : ℚ := 0
  dailySpend : ℚ := 0
  lastDailyReset : ℤ := 0
  usageRecords : List UsageRecord := []
  rateWindows : String → RateWindow := fun _ => {}

/-- The typed errors `validate_request` can raise (messages elided):
`PolicyViolationError` and its subtypes, plus `FallbackToLocalError`. -/
inductive PolicyError
  | policyViolation
  | providerDisabled
  | budgetExceeded
  | rateLimitExceeded
  | fallbackToLocal
deriving DecidableEq

/-- `PolicyEnforcer._reset_daily_budget_if_needed` with the current UTC date
passed explicitly: zero the daily spend when the date advanced. -/
def resetDailyIfNeeded (st : EnforcerState) (nowDate : ℤ) : EnforcerState :=
  if st.lastDailyReset < nowDate then
    { st with dailySpend := 0, lastDailyReset := nowDate }
  else st

/-- `PolicyEnforcer._check_rate_limits` with `time.time()` passed explicitly.
Returns the error raised (if any) together with the window as left behind:
pruning to the trailing 60 seconds persists even when a limit check raises;
the request is recorded into the window only when both checks pass. -/
def checkRateLimits (pp : ProviderPolicy) (w : RateWindow) (now : ℚ) (tokens : Nat) :
    Option PolicyError × RateWindow :=
  let reqs := w.requests.filter (fun t => decide (now - 60 < t))
  let toks := w.tokens.filter (fun p => decide (now - 60 < p.1))
  if 0 < pp.rate_limit_rpm ∧ pp.rate_limit_rpm ≤ reqs.length then
    (some .rateLimitExceeded, { requests := reqs, tokens := toks })
  else if 0 < pp.rate_limit_tpm ∧ pp.rate_limit_tpm < (toks.map (·.2)).sum + tokens then
    (some .rateLimitExceeded, { requests := reqs, tokens := toks })
  else
    (none, { requests := reqs ++ [now], tokens := toks ++ [(now, tokens)] })

/-- `PolicyEnforcer.validate_request`, with the current UTC date and
`time.time()` instant passed explicitly.  Returns `ok` or the first typed
error raised, together with the enforcer state as mutated up to that point
(the daily reset and the rate-window update happen only if execution
reaches them).  Python truthiness is preserved: a daily budget of `0.0` is
falsy and skips the daily check; a reason of `None` or `""` is "no reason". -/
def validateRequest (policy : TenantPolicy) (st : EnforcerState) (nowDate : ℤ)
    (nowTime : ℚ) (provider model : String) (estimatedTokens : Nat)
    (reason : Option String) : Except PolicyError Unit × EnforcerState :=
  let pp := lookupProviderPolicy policy provider
  if pp.enabled = false then (.error .providerDisabled, st)
  else if pp.denied_models ≠ [] ∧ model ∈ pp.denied_models then
    (.error .policyViolation, st)
  else if pp.allowed_models ≠ [] ∧ model ∉ pp.allowed_models then
    (.error .policyViolation, st)
  else if (match pp.cost_tier_limit, modelCostTiers model with
           | some limitTier, some modelTier => tierExceedsLimit modelTier limitTier
           | _, _ => false) = true then
    (.error .policyViolation, st)
  else if pp.max_tokens_per_request < estimatedTokens then
    (.error .policyViolation, st)
  else
    let estimatedCost := estimateCost model estimatedTokens
    if 0 < pp.max_cost_per_request ∧ pp.max_cost_per_request < estimatedCost then
      (.error .policyViolation, st)
    else
      let st1 := resetDailyIfNeeded st nowDate
      if (match policy.daily_budget_usd with
          | some b => decide (b ≠ 0 ∧ b < st1.dailySpend + estimatedCost)
          | none => false) = true then
        if policy.fallback_to_local then (.error .fallbackToLocal, st1)
        else (.error .budgetExceeded, st1)
      else if policy.monthly_budget_usd < st1.monthlySpend + estimatedCost then
        if policy.fallback_to_local then (.error .fallbackToLocal, st1)
        else (.error .budgetExceeded, st1)
      else
        match checkRateLimits pp (st1.rateWindows provider) nowTime estimatedTokens with
        | (rateErr, w2) =>
          let st2 := { st1 with
            rateWindows := fun p => if p = provider then w2 else st1.rateWindows p }
          match rateErr with
          | some e => (.error e, st2)
          | none =>
            if pp.require_reason = true ∧ (reason = none ∨ reason = some "") then
              (.error .policyViolation, st2)
            else (.ok (), st2)

/-- `PolicyEnforcer.record_usage`, with the record's timestamp passed
explicitly: append a usage record and bump both spend counters, unless
tenant usage tracking is disabled. -/
def recordUsage (policy : TenantPolicy) (st : EnforcerState)
    (provider model : String) (tokensInput tokensOutput : Nat)
    (costUsd latencyMs : ℚ) (success : Bool) (reason : Option String)
    (timestamp : ℚ) : EnforcerState :=
  if policy.track_usage = false then st
  else
    { st with
      usageRecords := st.usageRecords ++
        [{ timestamp := timestamp
           tenant_id := policy.tenant_id
           provider := provider
           model := model
           tokens_input := tokensInput
           tokens_output := tokensOutput
           tokens_total := tokensInput + tokensOutput
           cost_usd := costUsd
           latency_ms := latencyMs
           success := success
           reason := reason }]
      monthlySpend := st.monthlySpend + costUsd
      dailySpend := st.dailySpend + costUsd }

/-- `PolicyEnforcer.reset_monthly_budget`. -/
def resetMonthlyBudget (st : EnforcerState) : EnforcerState :=
  { st with monthlySpend := 0 }

/-- `get_model_pricing` in policies.py: direct `MODEL_COSTS` lookup, then
the `"azure-"`, `"claude-"`, `"gpt-"` prefixed lookups in order, then the
free fallback for `ollama`/`local` providers, otherwise `None`. -/
def getModelPricing (provider model : String) : Option (ℚ × ℚ) :=
  let providerLower := provider.toLower
  match modelCosts model with
  | some p => some p
  | none =>
    match modelCosts ("azure-" ++ model) with
    | some p => some p
    | none =>
      match modelCosts ("claude-" ++ model) with
      | some p => some p
      | none =>
        match modelCosts ("gpt-" ++ model) with
        | some p => some p
        | none =>
          if providerLower = "ollama" ∨ providerLower = "local" then some (0, 0)
          else none

/-- Metrics for a single LLM request (`LLMRequestMetrics` in telemetry.py),
with dataclass defaults; the timestamp is a rational instant. -/
structure LLMRequestMetrics where
  request_id : String
  tenant_id : String
  provider : String
  model : String
  user_id : Option String := none
  input_tokens : Nat := 0
  output_tokens : Nat := 0
  total_tokens : Nat := 0
  latency_ms : ℚ := 0
  time_to_first_token_ms : Option ℚ := none
  cost_usd : ℚ := 0
  timestamp : ℚ := 0
  success : Bool := true
  error_type : Option String := none
  error_message : Option String := none
  endpoint : Option String := none
  streaming : Bool := false
  cached : Bool := false
deriving DecidableEq

/-- The state of a `TelemetryCollector`: the primary bounded history and the
per-tenant index (`self._metrics` and `self._by_tenant`; a tenant absent
from the Python defaultdict is the empty list).  The export callback and
the lock are effects outside this embedding. -/
structure TelemetryCollector where
  maxHistory : Nat := 10000
  metrics : List LLMRequestMetrics := []
  byTenant : String → List LLMRequestMetrics := fun _ => []

/-- `TelemetryCollector._calculate_cost`: per-1K-token pricing via
`get_model_pricing`, zero when no pricing is found. -/
def calculateCost (provider model : String) (inputTokens outputTokens : Nat) : ℚ :=
  match getModelPricing provider model with
  | none => 0
  | some (inputRate, outputRate) =>
    ((inputTokens : ℚ) * inputRate + (outputTokens : ℚ) * outputRate) / 1000

/-- The cost-defaulting step at the top of `TelemetryCollector.record`:
if `cost_usd == 0.0 and total_tokens > 0`, fill the cost in from the
pricing table. -/
def adjustCost (m : LLMRequestMetrics) : LLMRequestMetrics :=
  if m.cost_usd = 0 ∧ 0 < m.total_tokens then
    { m with cost_usd := calculateCost m.provider m.model m.input_tokens m.output_tokens }
  else m

/-- `TelemetryCollector.record`: fill in the cost if needed, append to the
primary history and the tenant index, then if the history exceeds
`max_history` pop the oldest entry and (when the head of its tenant's list
carries the same request id) pop it from the tenant index too. -/
def record (c : TelemetryCollector) (metrics : LLMRequestMetrics) : TelemetryCollector :=
  let m := adjustCost metrics
  let ms := c.metrics ++ [m]
  let bt : String → List LLMRequestMetrics :=
    fun t => if t = m.tenant_id then c.byTenant t ++ [m] else c.byTenant t
  if c.maxHistory < ms.length then
    match ms with
    | [] => { c with metrics := ms, byTenant := bt }
    | removed :: rest =>
      let tenantList := bt removed.tenant_id
      let tenantList2 :=
        match tenantList with
        | [] => tenantList
        | x :: xs => if x.request_id = removed.request_id then xs else tenantList
      { c with
        metrics := rest
        byTenant := fun t => if t = removed.tenant_id then tenantList2 else bt t }
  else { c with metrics := ms, byTenant := bt }

/-- `TelemetryCollector._percentile` on the (already sorted) value list:
index `(n-1)*p/100`; the exact value when the index is integral, otherwise
linear interpolation between `int(idx)` and `min(int(idx)+1, n-1)`. -/
def percentile (values : List ℚ) (p : ℚ) : ℚ :=
  if values = [] then 0
  else
    let idx : ℚ := ((values.length : ℚ) - 1) * p / 100
    if idx.den = 1 then values.getD (pyInt idx).toNat 0
    else
      let lowerIdx := (pyInt idx).toNat
      let upperIdx := min (lowerIdx + 1) (values.length - 1)
      let fraction := idx - (lowerIdx : ℚ)
      values.getD lowerIdx 0 +
        (values.getD upperIdx 0 - values.getD lowerIdx 0) * fraction

/-- The average latency computed in `get_stats`:
`sum(latencies) / len(latencies) if latencies else 0`. -/
def latencyAvg (latencies : List ℚ) : ℚ :=
  if latencies = [] then 0 else latencies.sum / (latencies.length : ℚ)

/-- Accumulator-style parse of a digit run (helper for Python `int`). -/
def parseNatDigits : List Char → Nat → Option Nat
  | [], acc => some acc
  | ch :: rest, acc =>
    if ch.isDigit then parseNatDigits rest (acc * 10 + (ch.toNat - '0'.toNat))
    else none

/-- Python `int(s)` on a (possibly sign-prefixed) digit string, over the
string's character list; `none` embeds the `ValueError`. -/
def pyParseInt (chars : List Char) : Option ℤ :=
  match chars with
  | [] => none
  | '-' :: rest =>
    if rest = [] then none
    else (parseNatDigits rest 0).map (fun n => -(n : ℤ))
  | cs => (parseNatDigits cs 0).map (fun n => (n : ℤ))

/-- `TelemetryCollector._parse_period`: `{N}{unit}` with unit `m`/`h`/`d`
(`period[-1]` is the unit, `int(period[:-1])` the value), returned as a
duration in seconds; `none` embeds the `ValueError`s, including the empty
string. -/
def parsePeriod (period : String) : Option ℚ :=
  match period.data.getLast? with
  | none => none
  | some unit =>
    match pyParseInt period.data.dropLast with
    | none => none
    | some value =>
      if unit = 'h' then some ((value : ℚ) * 3600)
      else if unit = 'd' then some ((value : ℚ) * 86400)
      else if unit = 'm' then some ((value : ℚ) * 60)
      else none

/-- Python `sorted` on rationals (insertion sort; order-equivalent). -/
def insertSorted (x : ℚ) : List ℚ → List ℚ
  | [] => [x]
  | y :: ys => if x ≤ y then x :: y :: ys else y :: insertSorted x ys

/-- Python `sorted` on a list of rationals. -/
def sortQ (l : List ℚ) : List ℚ :=
  l.foldr insertSorted []

/-- One entry of a `by_provider`/`by_model` breakdown:
(requests, cost, tokens). -/
abbrev BreakdownEntry := Nat × ℚ × Nat

/-- One `defaultdict` update step of the `get_stats` aggregation loop:
bump the entry for key `k` (insertion order preserved, as in a Python
dict). -/
def bumpBreakdown (l : List (String × BreakdownEntry)) (k : String)
    (cost : ℚ) (tokens : Nat) : List (String × BreakdownEntry) :=
  match l with
  | [] => [(k, (1, cost, tokens))]
  | (k2, (r, co, tk)) :: rest =>
    if k2 = k then (k2, (r + 1, co + cost, tk + tokens)) :: rest
    else (k2, (r, co, tk)) :: bumpBreakdown rest k cost tokens

/-- The `by_provider` dict built by the `get_stats` loop. -/
def buildByProvider (ms : List LLMRequestMetrics) : List (String × BreakdownEntry) :=
  ms.foldl (fun acc m => bumpBreakdown acc m.provider m.cost_usd m.total_tokens) []

/-- The `by_model` dict built by the `get_stats` loop. -/
def buildByModel (ms : List LLMRequestMetrics) : List (String × BreakdownEntry) :=
  ms.foldl (fun acc m => bumpBreakdown acc m.model m.cost_usd m.total_tokens) []

/-- One `errors_by_type` update step (`if not m.success and m.error_type`,
where an empty error-type string is falsy). -/
def bumpError (l : List (String × Nat)) (k : String) : List (String × Nat) :=
  match l with
  | [] => [(k, 1)]
  | (k2, n) :: rest =>
    if k2 = k then (k2, n + 1) :: rest else (k2, n) :: bumpError rest k

/-- The `errors_by_type` dict built by the `get_stats` loop. -/
def buildErrors (ms : List LLMRequestMetrics) : List (String × Nat) :=
  ms.foldl
    (fun acc m =>
      match m.error_type with
      | some e => if m.success = false ∧ e ≠ "" then bumpError acc e else acc
      | none => acc)
    []

/-- Aggregated metrics over a time period (`AggregatedMetrics` in
telemetry.py); the dict-valued fields are association lists in insertion
order. -/
structure AggregatedMetrics where
  period_start : ℚ
  period_end : ℚ
  tenant_id : Option String := none
  total_requests : Nat := 0
  successful_requests : Nat := 0
  failed_requests : Nat := 0
  cached_requests : Nat := 0
  total_input_tokens : Nat := 0
  total_output_tokens : Nat := 0
  total_cost_usd : ℚ := 0
  latency_p50 : ℚ := 0
  latency_p95 : ℚ := 0
  latency_p99 : ℚ := 0
  latency_avg : ℚ := 0
  by_provider : List (String × BreakdownEntry) := []
  by_model : List (String × BreakdownEntry) := []
  errors_by_type : List (String × Nat) := []
deriving DecidableEq

/-- Python truthiness of the optional `tenant_id` filter string
(`if tenant_id:`): `None` and `""` are falsy. -/
def tenantTruthy : Option String → Bool
  | none => false
  | some s => s ≠ ""

/-- `TelemetryCollector.get_stats` with `datetime.utcnow()` passed
explicitly; `none` embeds the `ValueError` of an invalid period string. -/
def getStats (c : TelemetryCollector) (period : String) (tenantId : Option String)
    (now : ℚ) : Option AggregatedMetrics :=
  match parsePeriod period with
  | none => none
  | some delta =>
    let cutoff := now - delta
    let source := if tenantTruthy tenantId then c.byTenant (tenantId.getD "") else c.metrics
    let ms := source.filter (fun m => decide (cutoff ≤ m.timestamp))
    if ms = [] then
      some { period_start := cutoff, period_end := now, tenant_id := tenantId }
    else
      let latencies := sortQ (ms.map (·.latency_ms))
      some
        { period_start := cutoff
          period_end := now
          tenant_id := tenantId
          total_requests := ms.length
          successful_requests := (ms.filter (fun m => m.success = true)).length
          failed_requests := (ms.filter (fun m => m.success = false)).length
          cached_requests := (ms.filter (fun m => m.cached = true)).length
          total_input_tokens := (ms.map (·.input_tokens)).sum
          total_output_tokens := (ms.map (·.output_tokens)).sum
          total_cost_usd := (ms.map (·.cost_usd)).sum
          latency_p50 := percentile latencies 50
          latency_p95 := percentile latencies 95
          latency_p99 := percentile latencies 99
          latency_avg := latencyAvg latencies
          by_provider := buildByProvider ms
          by_model := buildByModel ms
          errors_by_type := buildErrors ms }

/-- The exception classes involved in policy enforcement.  From policies.py:
`PolicyViolationError(LLMError)`, `ProviderDisabledError`,
`BudgetExceededError`, `RateLimitExceededError` all subclass
`PolicyViolationError`, and `FallbackToLocalError(Exception)` subclasses
`Exception` directly. -/
inductive PyExcClass
  | exceptionBase
  | llmError
  | policyViolationError
  | providerDisabledError
  | budgetExceededError
  | rateLimitExceededError
  | fallbackToLocalError
deriving DecidableEq

/-- The direct base class of each exception class, from the `class C(B):`
headers in policies.py.  Modelled from the spec: `LLMError` lives in
`netrun/llm/exceptions.py`, which is not part of the sources here; the spec
treats it as the library's base error type, so it is taken to be a direct
`Exception` subclass.  No claim below depends on that edge. -/
def parentOf : PyExcClass → Option PyExcClass
  | .exceptionBase => none
  | .llmError => some .exceptionBase
  | .policyViolationError => some .llmError
  | .providerDisabledError => some .policyViolationError
  | .budgetExceededError => some .policyViolationError
  | .rateLimitExceededError => some .policyViolationError
  | .fallbackToLocalError => some .exceptionBase

/-- `IsSubclass a b`: class `a` is `b` or a (transitive) subclass of `b`. -/
inductive IsSubclass : PyExcClass → PyExcClass → Prop
  | refl (c : PyExcClass) : IsSubclass c c
  | step {a b c : PyExcClass} : parentOf a = some b → IsSubclass b c → IsSubclass a c

/-- A Python `except handler:` clause catches a raised exception exactly when
the raised class is a subclass of the handler's class. -/
def handlerCatches (handler raised : PyExcClass) : Prop :=
  IsSubclass raised handler

/-- The percentile computation as the specification words it: index
`(n-1)*p/100` into the sorted values; the value at that index when it is
integral, otherwise linear interpolation between the floor and ceil
indices. -/
def percentileSpec (values : List ℚ) (p : ℚ) : ℚ :=
  if values = [] then 0
  else
    let idx : ℚ := ((values.length : ℚ) - 1) * p / 100
    if idx.den = 1 then values.getD ⌊idx⌋.toNat 0
    else
      values.getD ⌊idx⌋.toNat 0 +
        (values.getD ⌈idx⌉.toNat 0 - values.getD ⌊idx⌋.toNat 0) * (idx - (⌊idx⌋ : ℚ))

/-- The demonstration latency list `[100, 200, ..., 1000]`. -/
def demoLatencies : List ℚ :=
  [100, 200, 300, 400, 500, 600, 700, 800, 900, 1000]

/-- Python `int()` truncation agrees with the floor on nonnegative
rationals. -/
theorem pyInt_eq_floor {q : ℚ} (h : 0 ≤ q) : pyInt q = ⌊q⌋ := by
  rw [pyInt, Rat.floor_def]
  exact Int.tdiv_eq_ediv (Rat.num_nonneg.mpr h) (Int.ofNat_nonneg q.den)

/-- A rational whose reduced denominator is not 1 lies strictly between its
floor and its ceiling, which are one apart. -/
theorem ceil_eq_floor_add_one_of_den_ne_one {q : ℚ} (h : q.den ≠ 1) :
    ⌈q⌉ = ⌊q⌋ + 1 := by
  have hne : q ≠ (⌊q⌋ : ℚ) := by
    intro heq
    exact h (by rw [heq]; exact Rat.den_intCast _)
  have hlt : (⌊q⌋ : ℚ) < q := lt_of_le_of_ne (Int.floor_le q) (Ne.symm hne)
  have h1 : ⌊q⌋ + 1 ≤ ⌈q⌉ := by
    have : (⌊q⌋ : ℚ) < (⌈q⌉ : ℚ) := lt_of_lt_of_le hlt (Int.le_ceil q)
    exact_mod_cast Int.add_one_le_of_lt (by exact_mod_cast this)
  exact le_antisymm (Int.ceil_le_floor_add_one q) h1

/-- Every (improper) superclass of `FallbackToLocalError` is itself or
`Exception`. -/
theorem fallback_superclasses {c : PyExcClass}
    (h : IsSubclass .fallbackToLocalError c) :
    c = .fallbackToLocalError ∨ c = .exceptionBase := by
  cases h with
  | refl => exact Or.inl rfl
  | step hp h2 =>
    simp only [parentOf, Option.some.injEq] at hp
    subst hp
    cases h2 with
    | refl => exact Or.inr rfl
    | step hp2 _ => exact absurd hp2.symm (Option.some_ne_none _)

/-- C4: for every non-empty sorted latency list the collector's percentile
is the value at index `(n-1)*p/100` when that index is integral and the
linear interpolation between the floor and ceil indices otherwise; on
`[100, 200, ..., 1000]` this gives p50 = 550, p95 = 955, p99 = 991, and the
average latency is 550. -/
theorem claim_C4 :
    (∀ (values : List ℚ) (p : ℚ), values ≠ [] → values.Sorted (· ≤ ·) →
        0 ≤ p → p ≤ 100 → percentile values p = percentileSpec values p) ∧
    percentile demoLatencies 50 = 550 ∧
    percentile demoLatencies 95 = 955 ∧
    percentile demoLatencies 99 = 991 ∧
    latencyAvg demoLatencies = 550 := by
  refine ⟨?_, ?_, ?_, ?_, ?_⟩
  · intro values p hne _ hp0 hp100
    simp only [percentile, percentileSpec]
    rw [if_neg hne, if_neg hne]
    set idx : ℚ := ((values.length : ℚ) - 1) * p / 100 with hidxdef
    have hn : 1 ≤ values.length := List.length_pos.mpr hne
    have hn1 : (0 : ℚ) ≤ (values.length : ℚ) - 1 := by
      have : (1 : ℚ) ≤ (values.length : ℚ) := by exact_mod_cast hn
      linarith
    have hidx0 : 0 ≤ idx := div_nonneg (mul_nonneg hn1 hp0) (by norm_num)
    have hfl := pyInt_eq_floor hidx0
    have hfl0 : 0 ≤ ⌊idx⌋ := Int.floor_nonneg.mpr hidx0
    by_cases hden : idx.den = 1
    · rw [if_pos hden, if_pos hden, hfl]
    · rw [if_neg hden, if_neg hden]
      have hceil := ceil_eq_floor_add_one_of_den_ne_one hden
      have hidxle : idx ≤ (values.length : ℚ) - 1 := by
        rw [hidxdef, mul_div_assoc]
        exact mul_le_of_le_one_right hn1 (by linarith)
      have hlt : idx < (values.length : ℚ) - 1 := by
        rcases lt_or_eq_of_le hidxle with h | h
        · exact h
        · exfalso
          apply hden
          have hc : ((values.length - 1 : ℕ) : ℚ) = (values.length : ℚ) - 1 := by
            push_cast [Nat.cast_sub hn]
            ring
          rw [h, ← hc]
          exact Rat.den_natCast _
      have hceil_le : ⌈idx⌉ ≤ (values.length : ℤ) - 1 := by
        rw [Int.ceil_le]
        push_cast
        linarith
      have hmin : min (⌊idx⌋.toNat + 1) (values.length - 1) = ⌈idx⌉.toNat := by
        rw [hceil] at hceil_le ⊢
        omega
      have hcast : (⌊idx⌋.toNat : ℚ) = (⌊idx⌋ : ℚ) := by
        exact_mod_cast Int.toNat_of_nonneg hfl0
      rw [hfl, hmin, hcast]
  · norm_num [percentile, demoLatencies, pyInt, Int.tdiv, Int.toNat]
    simp
  · norm_num [percentile, demoLatencies, pyInt, Int.tdiv, Int.toNat]
    simp
  · norm_num [percentile, demoLatencies, pyInt, Int.tdiv, Int.toNat]
    simp
  · norm_num [latencyAvg, demoLatencies]
    simp

/-- Witness for C4: the general clause applied to the demonstration list at
p = 95. -/
theorem claim_C4_witness :
    percentile demoLatencies 95 = percentileSpec demoLatencies 95 :=
  claim_C4.1 demoLatencies 95 (by decide) (by decide) (by norm_num) (by norm_num)

/-- C9: `FallbackToLocalError` is not a subtype of `PolicyViolationError`:
a handler for `PolicyViolationError` (or any of its subtypes
`ProviderDisabledError`, `BudgetExceededError`, `RateLimitExceededError`)
does not catch `FallbackToLocalError`, while those three are subtypes of
`PolicyViolationError`. -/
theorem claim_C9 :
    ¬ handlerCatches .policyViolationError .fallbackToLocalError ∧
    ¬ handlerCatches .providerDisabledError .fallbackToLocalError ∧
    ¬ handlerCatches .budgetExceededError .fallbackToLocalError ∧
    ¬ handlerCatches .rateLimitExceededError .fallbackToLocalError ∧
    ¬ IsSubclass .fallbackToLocalError .policyViolationError ∧
    IsSubclass .providerDisabledError .policyViolationError ∧
    IsSubclass .budgetExceededError .policyViolationError ∧
    IsSubclass .rateLimitExceededError .policyViolationError := by
  refine ⟨?_, ?_, ?_, ?_, ?_, ?_, ?_, ?_⟩
  · intro h
    rcases fallback_superclasses h with h2 | h2 <;> simp at h2
  · intro h
    rcases fallback_superclasses h with h2 | h2 <;> simp at h2
  · intro h
    rcases fallback_superclasses h with h2 | h2 <;> simp at h2
  · intro h
    rcases fallback_superclasses h with h2 | h2 <;> simp at h2
  · intro h
    rcases fallback_superclasses h with h2 | h2 <;> simp at h2
  · exact .step rfl (.refl _)
  · exact .step rfl (.refl _)
  · exact .step rfl (.refl _)

/-- The ten rules of `validate_request` as the specification orders them,
each evaluated independently: provider enabled, denied list, allowed list,
cost tier, per-request token ceiling, per-request cost ceiling, daily
budget, monthly budget, RPM/TPM rate limits, reason required.  Entry `i` is
`some e` when rule `i` fails with typed error `e`. -/
def orderedCheckResults (policy : TenantPolicy) (st : EnforcerState) (nowDate : ℤ)
    (nowTime : ℚ) (provider model : String) (estimatedTokens : Nat)
    (reason : Option String) : List (Option PolicyError) :=
  let pp := lookupProviderPolicy policy provider
  let estimatedCost := estimateCost model estimatedTokens
  let st1 := resetDailyIfNeeded st nowDate
  let budgetError : PolicyError :=
    if policy.fallback_to_local then .fallbackToLocal else .budgetExceeded
  [if pp.enabled = false then some .providerDisabled else none,
   if pp.denied_models ≠ [] ∧ model ∈ pp.denied_models then some .policyViolation
   else none,
   if pp.allowed_models ≠ [] ∧ model ∉ pp.allowed_models then some .policyViolation
   else none,
   if (match pp.cost_tier_limit, modelCostTiers model with
       | some limitTier, some modelTier => tierExceedsLimit modelTier limitTier
       | _, _ => false) = true then some .policyViolation
   else none,
   if pp.max_tokens_per_request < estimatedTokens then some .policyViolation else none,
   if 0 < pp.max_cost_per_request ∧ pp.max_cost_per_request < estimatedCost then
     some .policyViolation
   else none,
   if (match policy.daily_budget_usd with
       | some b => decide (b ≠ 0 ∧ b < st1.dailySpend + estimatedCost)
       | none => false) = true then some budgetError
   else none,
   if policy.monthly_budget_usd < st1.monthlySpend + estimatedCost then some budgetError
   else none,
   (checkRateLimits pp (st1.rateWindows provider) nowTime estimatedTokens).1,
   if pp.require_reason = true ∧ (reason = none ∨ reason = some "") then
     some .policyViolation
   else none]

/-- The first failing rule of an ordered check list. -/
def firstFailure (checks : List (Option PolicyError)) : Option PolicyError :=
  checks.findSome? id

/-- C1: `validate_request` raises exactly the typed error of the first
failing rule in the specification's order — provider enabled, denied list,
allowed list, cost tier, token ceiling, per-request cost ceiling, daily
budget, monthly budget, rate limits, reason required — and succeeds when no
rule fails; later rules cannot influence the outcome once an earlier rule
has failed. -/
theorem claim_C1 (policy : TenantPolicy) (st : EnforcerState) (nowDate : ℤ)
    (nowTime : ℚ) (provider model : String) (estimatedTokens : Nat)
    (reason : Option String) :
    (validateRequest policy st nowDate nowTime provider model estimatedTokens
        reason).1 =
      match firstFailure (orderedCheckResults policy st nowDate nowTime provider
          model estimatedTokens reason) with
      | some e => .error e
      | none => .ok () := by
  simp only [validateRequest, orderedCheckResults, firstFailure]
  rcases hrl : checkRateLimits (lookupProviderPolicy policy provider)
      ((resetDailyIfNeeded st nowDate).rateWindows provider) nowTime
      estimatedTokens with ⟨rerr, w2⟩
  by_cases h1 : (lookupProviderPolicy policy provider).enabled = false
  · simp [h1, List.findSome?]
  · simp only [if_neg h1]
    by_cases h2 : (lookupProviderPolicy policy provider).denied_models ≠ [] ∧
        model ∈ (lookupProviderPolicy policy provider).denied_models
    · simp [if_pos h2, List.findSome?, if_neg h1]
    · simp only [if_neg h2]
      by_cases h3 : (lookupProviderPolicy policy provider).allowed_models ≠ [] ∧
          model ∉ (lookupProviderPolicy policy provider).allowed_models
      · simp [if_pos h3, List.findSome?, if_neg h1, if_neg h2]
      · simp only [if_neg h3]
        by_cases h4 : (match (lookupProviderPolicy policy provider).cost_tier_limit,
              modelCostTiers model with
            | some limitTier, some modelTier => tierExceedsLimit modelTier limitTier
            | _, _ => false) = true
        · simp [if_pos h4, List.findSome?, if_neg h1, if_neg h2, if_neg h3]
        · simp only [if_neg h4]
          by_cases h5 : (lookupProviderPolicy policy provider).max_tokens_per_request <
              estimatedTokens
          · simp [if_pos h5, List.findSome?, if_neg h1, if_neg h2, if_neg h3, if_neg h4]
          · simp only [if_neg h5]
            by_cases h6 : 0 < (lookupProviderPolicy policy provider).max_cost_per_request ∧
                (lookupProviderPolicy policy provider).max_cost_per_request <
                  estimateCost model estimatedTokens
            · simp [if_pos h6, List.findSome?, if_neg h1, if_neg h2, if_neg h3, if_neg h4,
                if_neg h5]
            · simp only [if_neg h6]
              by_cases h7 : (match policy.daily_budget_usd with
                  | some b => decide (b ≠ 0 ∧
                      b < (resetDailyIfNeeded st nowDate).dailySpend +
                        estimateCost model estimatedTokens)
                  | none => false) = true
              · simp only [if_pos h7]
                by_cases hf : policy.fallback_to_local = true <;>
                  simp [hf, List.findSome?]
              · simp only [if_neg h7]
                by_cases h8 : policy.monthly_budget_usd <
                    (resetDailyIfNeeded st nowDate).monthlySpend +
                      estimateCost model estimatedTokens
                · by_cases hf : policy.fallback_to_local = true <;>
                    simp [if_pos h8, hf, List.findSome?, if_neg h1, if_neg h2, if_neg h3,
                      if_neg h4, if_neg h5, if_neg h6, if_neg h7]
                · simp only [if_neg h8]
                  cases rerr with
                  | some e =>
                    simp [List.findSome?, if_neg h1, if_neg h2, if_neg h3, if_neg h4,
                      if_neg h5, if_neg h6, if_neg h7, if_neg h8]
                  | none =>
                    by_cases h10 : (lookupProviderPolicy policy provider).require_reason =
                          true ∧ (reason = none ∨ reason = some "")
                    · simp [if_pos h10, List.findSome?, if_neg h1, if_neg h2, if_neg h3,
                        if_neg h4, if_neg h5, if_neg h6, if_neg h7, if_neg h8]
                    · simp [if_neg h10, List.findSome?, if_neg h1, if_neg h2, if_neg h3,
                        if_neg h4, if_neg h5, if_neg h6, if_neg h7, if_neg h8]

/-- The six checks of `validate_request` that precede the budget checks all
pass: provider enabled, model not denied, model allowed, cost tier within
limit, token ceiling respected, per-request cost ceiling respected. -/
def preChecksPass (policy : TenantPolicy) (provider model : String)
    (estimatedTokens : Nat) : Prop :=
  let pp := lookupProviderPolicy policy provider
  pp.enabled = true ∧
  ¬(pp.denied_models ≠ [] ∧ model ∈ pp.denied_models) ∧
  ¬(pp.allowed_models ≠ [] ∧ model ∉ pp.allowed_models) ∧
  (match pp.cost_tier_limit, modelCostTiers model with
   | some limitTier, some modelTier => tierExceedsLimit modelTier limitTier
   | _, _ => false) = false ∧
  estimatedTokens ≤ pp.max_tokens_per_request ∧
  ¬(0 < pp.max_cost_per_request ∧
      pp.max_cost_per_request < estimateCost model estimatedTokens)

/-- The daily-budget rule of `validate_request` fires (Python truthiness
included: a daily budget of `0.0` never fires). -/
def dailyCheckBlocks (policy : TenantPolicy) (st : EnforcerState) (nowDate : ℤ)
    (model : String) (estimatedTokens : Nat) : Bool :=
  match policy.daily_budget_usd with
  | some b => decide (b ≠ 0 ∧
      b < (resetDailyIfNeeded st nowDate).dailySpend + estimateCost model estimatedTokens)
  | none => false

/-- The daily reset never touches the monthly counter. -/
theorem resetDaily_monthlySpend (st : EnforcerState) (d : ℤ) :
    (resetDailyIfNeeded st d).monthlySpend = st.monthlySpend := by
  unfold resetDailyIfNeeded
  split_ifs <;> rfl

/-- The daily reset never touches the rate windows. -/
theorem resetDaily_rateWindows (st : EnforcerState) (d : ℤ) :
    (resetDailyIfNeeded st d).rateWindows = st.rateWindows := by
  unfold resetDailyIfNeeded
  split_ifs <;> rfl

/-- A tenant policy with a daily budget of zero dollars: pydantic accepts it
(`ge=0.0`), but Python truthiness makes `validate_request` skip the daily
check entirely. -/
def zeroDailyPolicy : TenantPolicy :=
  { tenant_id := "acme"
    daily_budget_usd := some 0
    fallback_to_local := false }

/-- Counterexample to C2 as stated: the tenant's daily budget is set
(`some 0`), the current daily spend plus the estimated cost (`$0.066` for
claude-3-opus at 2000 tokens) strictly exceeds it, every other rule passes,
yet `validate_request` succeeds instead of raising `BudgetExceededError`:
a zero daily budget is falsy in Python and is never enforced. -/
theorem claim_C2_counterexample :
    zeroDailyPolicy.daily_budget_usd = some 0 ∧
    ({} : EnforcerState).dailySpend + estimateCost "claude-3-opus" 2000 > 0 ∧
    (validateRequest zeroDailyPolicy {} 0 0 "openai" "claude-3-opus" 2000 none).1 =
      .ok () := by
  refine ⟨rfl, ?_, ?_⟩
  · norm_num [estimateCost, estimateCostRatio, modelCosts, pyInt, Int.tdiv]
  · norm_num [validateRequest, zeroDailyPolicy, lookupProviderPolicy,
      resetDailyIfNeeded, checkRateLimits, estimateCost, estimateCostRatio,
      modelCosts, modelCostTiers, pyInt, Int.tdiv]

/-- C2 (amended): when the six earlier checks pass, the budget rule is: if
a nonzero daily budget is set and the (reset-adjusted) daily spend plus the
estimated cost strictly exceeds it, `validate_request` raises
`FallbackToLocalError` when the tenant's `fallback_to_local` flag is true
and `BudgetExceededError` otherwise; and when the daily rule does not fire,
the same dichotomy applies if the monthly spend plus the estimated cost
strictly exceeds `monthly_budget_usd`.  (A daily budget of exactly 0 is
ignored — Python truthiness — which is the one amendment to the claim.) -/
theorem claim_C2 (policy : TenantPolicy) (st : EnforcerState) (nowDate : ℤ)
    (nowTime : ℚ) (provider model : String) (estimatedTokens : Nat)
    (reason : Option String)
    (hpre : preChecksPass policy provider model estimatedTokens) :
    (∀ b : ℚ, policy.daily_budget_usd = some b → b ≠ 0 →
        b < (resetDailyIfNeeded st nowDate).dailySpend +
          estimateCost model estimatedTokens →
        (validateRequest policy st nowDate nowTime provider model estimatedTokens
            reason).1 =
          .error (if policy.fallback_to_local then .fallbackToLocal
                  else .budgetExceeded)) ∧
    (dailyCheckBlocks policy st nowDate model estimatedTokens = false →
      policy.monthly_budget_usd < st.monthlySpend + estimateCost model estimatedTokens →
      (validateRequest policy st nowDate nowTime provider model estimatedTokens
          reason).1 =
        .error (if policy.fallback_to_local then .fallbackToLocal
                else .budgetExceeded)) := by
  obtain ⟨h1, h2, h3, h4, h5, h6⟩ := hpre
  constructor
  · intro b hb hbne hblt
    simp only [validateRequest, h1, h4, hb]
    have hcond : decide (b ≠ 0 ∧
        b < (resetDailyIfNeeded st nowDate).dailySpend +
          estimateCost model estimatedTokens) = true :=
      decide_eq_true ⟨hbne, hblt⟩
    simp only [hcond]
    simp [if_neg h2, if_neg h3, if_neg (not_lt.mpr h5), if_neg h6]
    rcases hf : policy.fallback_to_local with _ | _ <;> simp [hf]
  · intro hdf hm
    simp only [dailyCheckBlocks] at hdf
    simp only [validateRequest, h1, h4, hdf]
    have hm2 : policy.monthly_budget_usd <
        (resetDailyIfNeeded st nowDate).monthlySpend +
          estimateCost model estimatedTokens := by
      rw [resetDaily_monthlySpend]
      exact hm
    simp [if_neg h2, if_neg h3, if_neg (not_lt.mpr h5), if_neg h6, if_pos hm2]
    rcases hf : policy.fallback_to_local with _ | _ <;> simp [hf]

/-- The daily reset is a no-op when the date has not advanced. -/
theorem resetDaily_noop {st : EnforcerState} {d : ℤ} (h : ¬ st.lastDailyReset < d) :
    resetDailyIfNeeded st d = st := by
  unfold resetDailyIfNeeded
  rw [if_neg h]

/-- After a daily reset the stored reset date is never behind the date. -/
theorem resetDaily_lastReset_ge (st : EnforcerState) (d : ℤ) :
    ¬ (resetDailyIfNeeded st d).lastDailyReset < d := by
  unfold resetDailyIfNeeded
  split_ifs with h
  · simp
  · exact h

/-- When every check passes, `validate_request` succeeds and the final state
is the daily-reset state with the provider's rate window replaced by the one
`_check_rate_limits` left behind. -/
theorem validate_success_path (policy : TenantPolicy) (st : EnforcerState)
    (nowDate : ℤ) (nowTime : ℚ) (provider model : String) (tokens : Nat)
    (reason : Option String) (w : RateWindow)
    (hpre : preChecksPass policy provider model tokens)
    (hdaily : dailyCheckBlocks policy st nowDate model tokens = false)
    (hmonthly : st.monthlySpend + estimateCost model tokens ≤ policy.monthly_budget_usd)
    (hreason : ¬((lookupProviderPolicy policy provider).require_reason = true ∧
        (reason = none ∨ reason = some "")))
    (hrl : checkRateLimits (lookupProviderPolicy policy provider)
        ((resetDailyIfNeeded st nowDate).rateWindows provider) nowTime tokens =
      (none, w)) :
    validateRequest policy st nowDate nowTime provider model tokens reason =
      (.ok (), { resetDailyIfNeeded st nowDate with
        rateWindows := fun p => if p = provider then w
          else (resetDailyIfNeeded st nowDate).rateWindows p }) := by
  obtain ⟨h1, h2, h3, h4, h5, h6⟩ := hpre
  simp only [dailyCheckBlocks] at hdaily
  have hm2 : ¬(policy.monthly_budget_usd <
      (resetDailyIfNeeded st nowDate).monthlySpend + estimateCost model tokens) := by
    rw [resetDaily_monthlySpend]
    exact not_lt.mpr hmonthly
  simp only [validateRequest, h1, h4, hdaily, hrl]
  simp [if_neg h2, if_neg h3, if_neg (not_lt.mpr h5), if_neg h6, if_neg hm2,
    if_neg hreason]

/-- When every check before the rate limits passes but `_check_rate_limits`
raises, `validate_request` raises that error and the pruned window is still
stored. -/
theorem validate_rate_error_path (policy : TenantPolicy) (st : EnforcerState)
    (nowDate : ℤ) (nowTime : ℚ) (provider model : String) (tokens : Nat)
    (reason : Option String) (e : PolicyError) (w : RateWindow)
    (hpre : preChecksPass policy provider model tokens)
    (hdaily : dailyCheckBlocks policy st nowDate model tokens = false)
    (hmonthly : st.monthlySpend + estimateCost model tokens ≤ policy.monthly_budget_usd)
    (hrl : checkRateLimits (lookupProviderPolicy policy provider)
        ((resetDailyIfNeeded st nowDate).rateWindows provider) nowTime tokens =
      (some e, w)) :
    validateRequest policy st nowDate nowTime provider model tokens reason =
      (.error e, { resetDailyIfNeeded st nowDate with
        rateWindows := fun p => if p = provider then w
          else (resetDailyIfNeeded st nowDate).rateWindows p }) := by
  obtain ⟨h1, h2, h3, h4, h5, h6⟩ := hpre
  simp only [dailyCheckBlocks] at hdaily
  have hm2 : ¬(policy.monthly_budget_usd <
      (resetDailyIfNeeded st nowDate).monthlySpend + estimateCost model tokens) := by
    rw [resetDaily_monthlySpend]
    exact not_lt.mpr hmonthly
  simp only [validateRequest, h1, h4, hdaily, hrl]
  simp [if_neg h2, if_neg h3, if_neg (not_lt.mpr h5), if_neg h6, if_neg hm2]

/-- C3: with `rate_limit_rpm = 2` for a provider and no other limit binding
(TPM unlimited, all other checks passing, a fresh window), the first two
calls to `validate_request` succeed and a third call whose timestamp lies in
the same trailing 60-second window raises `RateLimitExceededError`. -/
theorem claim_C3 (policy : TenantPolicy) (st : EnforcerState) (nowDate : ℤ)
    (t1 t2 t3 : ℚ) (provider model : String) (tokens : Nat) (reason : Option String)
    (hpre : preChecksPass policy provider model tokens)
    (hrpm : (lookupProviderPolicy policy provider).rate_limit_rpm = 2)
    (htpm : (lookupProviderPolicy policy provider).rate_limit_tpm = 0)
    (hdaily : dailyCheckBlocks policy st nowDate model tokens = false)
    (hmonthly : st.monthlySpend + estimateCost model tokens ≤ policy.monthly_budget_usd)
    (hreason : ¬((lookupProviderPolicy policy provider).require_reason = true ∧
        (reason = none ∨ reason = some "")))
    (hwin : st.rateWindows provider = {})
    (h12 : t1 ≤ t2) (h23 : t2 ≤ t3) (hwindow : t3 - 60 < t1) :
    (validateRequest policy st nowDate t1 provider model tokens reason).1 = .ok () ∧
    (validateRequest policy
        (validateRequest policy st nowDate t1 provider model tokens reason).2
        nowDate t2 provider model tokens reason).1 = .ok () ∧
    (validateRequest policy
        (validateRequest policy
            (validateRequest policy st nowDate t1 provider model tokens reason).2
            nowDate t2 provider model tokens reason).2
        nowDate t3 provider model tokens reason).1 = .error .rateLimitExceeded := by
  have ht21 : t2 - 60 < t1 := by linarith
  have ht31 : t3 - 60 < t1 := hwindow
  have ht32 : t3 - 60 < t2 := by linarith
  have hlastA : ¬ (resetDailyIfNeeded st nowDate).lastDailyReset < nowDate :=
    resetDaily_lastReset_ge st nowDate
  -- call 1: empty window, request recorded
  have hrl1 : checkRateLimits (lookupProviderPolicy policy provider)
      ((resetDailyIfNeeded st nowDate).rateWindows provider) t1 tokens =
      (none, { requests := [t1], tokens := [(t1, tokens)] }) := by
    rw [resetDaily_rateWindows, hwin]
    simp [checkRateLimits, hrpm, htpm]
  have e1 := validate_success_path policy st nowDate t1 provider model tokens reason
    _ hpre hdaily hmonthly hreason hrl1
  -- the state after call 1
  have hnoop1 : resetDailyIfNeeded
      { resetDailyIfNeeded st nowDate with
        rateWindows := fun p => if p = provider then
            { requests := [t1], tokens := [(t1, tokens)] }
          else (resetDailyIfNeeded st nowDate).rateWindows p } nowDate =
      { resetDailyIfNeeded st nowDate with
        rateWindows := fun p => if p = provider then
            { requests := [t1], tokens := [(t1, tokens)] }
          else (resetDailyIfNeeded st nowDate).rateWindows p } :=
    resetDaily_noop hlastA
  have hdaily2 : dailyCheckBlocks policy
      { resetDailyIfNeeded st nowDate with
        rateWindows := fun p => if p = provider then
            { requests := [t1], tokens := [(t1, tokens)] }
          else (resetDailyIfNeeded st nowDate).rateWindows p } nowDate model tokens =
      false := by
    simp only [dailyCheckBlocks, hnoop1] at *
    exact hdaily
  have hmonthly2 : ({ resetDailyIfNeeded st nowDate with
      rateWindows := fun p => if p = provider then
          { requests := [t1], tokens := [(t1, tokens)] }
        else (resetDailyIfNeeded st nowDate).rateWindows p } :
        EnforcerState).monthlySpend + estimateCost model tokens ≤
      policy.monthly_budget_usd := by
    simpa [resetDaily_monthlySpend] using hmonthly
  have hrl2 : checkRateLimits (lookupProviderPolicy policy provider)
      ((resetDailyIfNeeded
        { resetDailyIfNeeded st nowDate with
          rateWindows := fun p => if p = provider then
              { requests := [t1], tokens := [(t1, tokens)] }
            else (resetDailyIfNeeded st nowDate).rateWindows p } nowDate).rateWindows
        provider) t2 tokens =
      (none, { requests := [t1, t2], tokens := [(t1, tokens), (t2, tokens)] }) := by
    rw [hnoop1]
    simp [checkRateLimits, hrpm, htpm, decide_eq_true ht21]
  have e2 := validate_success_path policy
    { resetDailyIfNeeded st nowDate with
      rateWindows := fun p => if p = provider then
          { requests := [t1], tokens := [(t1, tokens)] }
        else (resetDailyIfNeeded st nowDate).rateWindows p }
    nowDate t2 provider model tokens reason _ hpre hdaily2 hmonthly2 hreason hrl2
  rw [hnoop1] at e2
  -- the state after call 2
  have hnoop2 : resetDailyIfNeeded
      { resetDailyIfNeeded st nowDate with
        rateWindows := fun p => if p = provider then
            { requests := [t1, t2], tokens := [(t1, tokens), (t2, tokens)] }
          else if p = provider then { requests := [t1], tokens := [(t1, tokens)] }
          else (resetDailyIfNeeded st nowDate).rateWindows p } nowDate =
      { resetDailyIfNeeded st nowDate with
        rateWindows := fun p => if p = provider then
            { requests := [t1, t2], tokens := [(t1, tokens), (t2, tokens)] }
          else if p = provider then { requests := [t1], tokens := [(t1, tokens)] }
          else (resetDailyIfNeeded st nowDate).rateWindows p } :=
    resetDaily_noop hlastA
  have hdaily3 : dailyCheckBlocks policy
      { resetDailyIfNeeded st nowDate with
        rateWindows := fun p => if p = provider then
            { requests := [t1, t2], tokens := [(t1, tokens), (t2, tokens)] }
          else if p = provider then { requests := [t1], tokens := [(t1, tokens)] }
          else (resetDailyIfNeeded st nowDate).rateWindows p } nowDate model tokens =
      false := by
    simp only [dailyCheckBlocks, hnoop2] at *
    exact hdaily
  have hmonthly3 : ({ resetDailyIfNeeded st nowDate with
      rateWindows := fun p => if p = provider then
          { requests := [t1, t2], tokens := [(t1, tokens), (t2, tokens)] }
        else if p = provider then { requests := [t1], tokens := [(t1, tokens)] }
        else (resetDailyIfNeeded st nowDate).rateWindows p } :
        EnforcerState).monthlySpend + estimateCost model tokens ≤
      policy.monthly_budget_usd := by
    simpa [resetDaily_monthlySpend] using hmonthly
  have hrl3 : checkRateLimits (lookupProviderPolicy policy provider)
      ((resetDailyIfNeeded
        { resetDailyIfNeeded st nowDate with
          rateWindows := fun p => if p = provider then
              { requests := [t1, t2], tokens := [(t1, tokens), (t2, tokens)] }
            else if p = provider then { requests := [t1], tokens := [(t1, tokens)] }
            else (resetDailyIfNeeded st nowDate).rateWindows p } nowDate).rateWindows
        provider) t3 tokens =
      (some .rateLimitExceeded,
        { requests := [t1, t2], tokens := [(t1, tokens), (t2, tokens)] }) := by
    rw [hnoop2]
    simp [checkRateLimits, hrpm, htpm, decide_eq_true ht31, decide_eq_true ht32]
  have e3 := validate_rate_error_path policy
    { resetDailyIfNeeded st nowDate with
      rateWindows := fun p => if p = provider then
          { requests := [t1, t2], tokens := [(t1, tokens), (t2, tokens)] }
        else if p = provider then { requests := [t1], tokens := [(t1, tokens)] }
        else (resetDailyIfNeeded st nowDate).rateWindows p }
    nowDate t3 provider model tokens reason _ _ hpre hdaily3 hmonthly3 hrl3
  refine ⟨by rw [e1], ?_, ?_⟩
  · simp only [e1]
    rw [e2]
  · simp only [e1, e2]
    exact congrArg Prod.fst e3

/-- A tenant policy whose `openai` provider policy allows two requests per
minute and has no token-per-minute limit. -/
def rpmPolicy : TenantPolicy :=
  { tenant_id := "acme"
    provider_policies :=
      [("openai", { provider := "openai", rate_limit_rpm := 2, rate_limit_tpm := 0 })]
    fallback_to_local := false }

/-- Witness for C3: with `rate_limit_rpm = 2`, calls at t = 0, 10 and 20
seconds see the first two succeed and the third raise
`RateLimitExceededError`. -/
theorem claim_C3_witness :
    (validateRequest rpmPolicy {} 0 0 "openai" "gpt-4o-mini" 100 none).1 = .ok () ∧
    (validateRequest rpmPolicy
        (validateRequest rpmPolicy {} 0 0 "openai" "gpt-4o-mini" 100 none).2
        0 10 "openai" "gpt-4o-mini" 100 none).1 = .ok () ∧
    (validateRequest rpmPolicy
        (validateRequest rpmPolicy
            (validateRequest rpmPolicy {} 0 0 "openai" "gpt-4o-mini" 100 none).2
            0 10 "openai" "gpt-4o-mini" 100 none).2
        0 20 "openai" "gpt-4o-mini" 100 none).1 = .error .rateLimitExceeded := by
  refine claim_C3 rpmPolicy {} 0 0 10 20 "openai" "gpt-4o-mini" 100 none
    ?_ ?_ ?_ rfl ?_ ?_ rfl (by norm_num) (by norm_num) (by norm_num)
  · refine ⟨rfl, ?_, ?_, rfl, ?_, ?_⟩ <;>
      norm_num [lookupProviderPolicy, rpmPolicy, estimateCost, estimateCostRatio,
        modelCosts, pyInt, Int.tdiv, List.lookup]
  · rfl
  · rfl
  · norm_num [estimateCost, estimateCostRatio, modelCosts, pyInt, Int.tdiv, rpmPolicy]
  · simp [lookupProviderPolicy, rpmPolicy, List.lookup]

/-- When every check before the reason check passes but a reason is required
and none is supplied, `validate_request` raises `PolicyViolationError`, and
the rate window already holds this request. -/
theorem validate_reason_error_path (policy : TenantPolicy) (st : EnforcerState)
    (nowDate : ℤ) (nowTime : ℚ) (provider model : String) (tokens : Nat)
    (w : RateWindow)
    (hpre : preChecksPass policy provider model tokens)
    (hdaily : dailyCheckBlocks policy st nowDate model tokens = false)
    (hmonthly : st.monthlySpend + estimateCost model tokens ≤ policy.monthly_budget_usd)
    (hreq : (lookupProviderPolicy policy provider).require_reason = true)
    (hrl : checkRateLimits (lookupProviderPolicy policy provider)
        ((resetDailyIfNeeded st nowDate).rateWindows provider) nowTime tokens =
      (none, w)) :
    validateRequest policy st nowDate nowTime provider model tokens none =
      (.error .policyViolation, { resetDailyIfNeeded st nowDate with
        rateWindows := fun p => if p = provider then w
          else (resetDailyIfNeeded st nowDate).rateWindows p }) := by
  obtain ⟨h1, h2, h3, h4, h5, h6⟩ := hpre
  simp only [dailyCheckBlocks] at hdaily
  have hm2 : ¬(policy.monthly_budget_usd <
      (resetDailyIfNeeded st nowDate).monthlySpend + estimateCost model tokens) := by
    rw [resetDaily_monthlySpend]
    exact not_lt.mpr hmonthly
  simp only [validateRequest, h1, h4, hdaily, hrl, hreq]
  simp [if_neg h2, if_neg h3, if_neg (not_lt.mpr h5), if_neg h6, if_neg hm2]

/-- When `_check_rate_limits` raises no error, the stored window is the
pruned one with the current request's timestamp and token count appended. -/
theorem checkRateLimits_none {pp : ProviderPolicy} {w0 w : RateWindow} {now : ℚ}
    {tokens : Nat} (h : checkRateLimits pp w0 now tokens = (none, w)) :
    w = { requests := w0.requests.filter (fun t => decide (now - 60 < t)) ++ [now]
          tokens := w0.tokens.filter (fun p => decide (now - 60 < p.1)) ++
            [(now, tokens)] } := by
  simp only [checkRateLimits] at h
  split_ifs at h
  · exact absurd h (by simp)
  · exact absurd h (by simp)
  · injection h with h1 h2
    exact h2.symm

/-- C10: `validate_request` is not atomic on its final check — when every
rule up to and including rate limiting passes but `require_reason` is true
and no reason is supplied, the call raises `PolicyViolationError` while the
request's timestamp and token count have already been appended to the
provider's sliding 60-second window. -/
theorem claim_C10 (policy : TenantPolicy) (st : EnforcerState) (nowDate : ℤ)
    (nowTime : ℚ) (provider model : String) (tokens : Nat)
    (hpre : preChecksPass policy provider model tokens)
    (hdaily : dailyCheckBlocks policy st nowDate model tokens = false)
    (hmonthly : st.monthlySpend + estimateCost model tokens ≤ policy.monthly_budget_usd)
    (hreq : (lookupProviderPolicy policy provider).require_reason = true)
    (hrl : (checkRateLimits (lookupProviderPolicy policy provider)
        ((resetDailyIfNeeded st nowDate).rateWindows provider) nowTime tokens).1 =
      none) :
    (validateRequest policy st nowDate nowTime provider model tokens none).1 =
      .error .policyViolation ∧
    (validateRequest policy st nowDate nowTime provider model tokens
        none).2.rateWindows provider =
      { requests := ((resetDailyIfNeeded st nowDate).rateWindows provider).requests.filter
            (fun t => decide (nowTime - 60 < t)) ++ [nowTime]
        tokens := ((resetDailyIfNeeded st nowDate).rateWindows provider).tokens.filter
            (fun p => decide (nowTime - 60 < p.1)) ++ [(nowTime, tokens)] } := by
  rcases hw : checkRateLimits (lookupProviderPolicy policy provider)
      ((resetDailyIfNeeded st nowDate).rateWindows provider) nowTime tokens with
    ⟨rerr, w⟩
  have hrerr : rerr = none := by
    rw [hw] at hrl
    exact hrl
  subst hrerr
  have hshape := checkRateLimits_none hw
  have e := validate_reason_error_path policy st nowDate nowTime provider model tokens
    w hpre hdaily hmonthly hreq hw
  rw [e]
  exact ⟨rfl, by simp [hshape]⟩

/-- A tenant policy whose `openai` provider policy requires a reason. -/
def reasonPolicy : TenantPolicy :=
  { tenant_id := "acme"
    provider_policies := [("openai", { provider := "openai", require_reason := true })] }

/-- Witness for C10: a reason-less request against a reason-requiring
provider is rejected, yet its timestamp (t = 5) and token count (100) are
left recorded in the rate window. -/
theorem claim_C10_witness :
    (validateRequest reasonPolicy {} 0 5 "openai" "gpt-4o-mini" 100 none).1 =
      .error .policyViolation ∧
    (validateRequest reasonPolicy {} 0 5 "openai" "gpt-4o-mini" 100
        none).2.rateWindows "openai" =
      { requests := [5], tokens := [(5, 100)] } := by
  have h := claim_C10 reasonPolicy {} 0 5 "openai" "gpt-4o-mini" 100
    (by
      refine ⟨rfl, ?_, ?_, rfl, ?_, ?_⟩ <;>
        norm_num [lookupProviderPolicy, reasonPolicy, estimateCost, estimateCostRatio,
          modelCosts, pyInt, Int.tdiv, List.lookup])
    rfl
    (by norm_num [estimateCost, estimateCostRatio, modelCosts, pyInt, Int.tdiv,
      reasonPolicy])
    (by simp [lookupProviderPolicy, reasonPolicy, List.lookup])
    rfl
  refine ⟨h.1, ?_⟩
  rw [h.2]
  rfl

/-- Whatever `validate_request` returns, the final enforcer state is the
input state, the daily-reset state, or the daily-reset state with one
provider rate window replaced. -/
theorem validate_state_shape (policy : TenantPolicy) (st : EnforcerState)
    (nowDate : ℤ) (nowTime : ℚ) (provider model : String) (tokens : Nat)
    (reason : Option String) :
    (validateRequest policy st nowDate nowTime provider model tokens reason).2 = st ∨
    (validateRequest policy st nowDate nowTime provider model tokens reason).2 =
      resetDailyIfNeeded st nowDate ∨
    ∃ w, (validateRequest policy st nowDate nowTime provider model tokens reason).2 =
      { resetDailyIfNeeded st nowDate with
        rateWindows := fun p => if p = provider then w
          else (resetDailyIfNeeded st nowDate).rateWindows p } := by
  simp only [validateRequest]
  rcases hrl : checkRateLimits (lookupProviderPolicy policy provider)
      ((resetDailyIfNeeded st nowDate).rateWindows provider) nowTime tokens with
    ⟨rerr, w2⟩
  by_cases h1 : (lookupProviderPolicy policy provider).enabled = false
  · simp [h1]
  · simp only [if_neg h1]
    by_cases h2 : (lookupProviderPolicy policy provider).denied_models ≠ [] ∧
        model ∈ (lookupProviderPolicy policy provider).denied_models
    · simp [if_pos h2]
    · simp only [if_neg h2]
      by_cases h3 : (lookupProviderPolicy policy provider).allowed_models ≠ [] ∧
          model ∉ (lookupProviderPolicy policy provider).allowed_models
      · simp [if_pos h3]
      · simp only [if_neg h3]
        by_cases h4 : (match (lookupProviderPolicy policy provider).cost_tier_limit,
              modelCostTiers model with
            | some limitTier, some modelTier => tierExceedsLimit modelTier limitTier
            | _, _ => false) = true
        · simp [if_pos h4]
        · simp only [if_neg h4]
          by_cases h5 : (lookupProviderPolicy policy provider).max_tokens_per_request <
              tokens
          · simp [if_pos h5]
          · simp only [if_neg h5]
            by_cases h6 : 0 < (lookupProviderPolicy policy provider).max_cost_per_request ∧
                (lookupProviderPolicy policy provider).max_cost_per_request <
                  estimateCost model tokens
            · simp [if_pos h6]
            · simp only [if_neg h6]
              by_cases h7 : (match policy.daily_budget_usd with
                  | some b => decide (b ≠ 0 ∧
                      b < (resetDailyIfNeeded st nowDate).dailySpend +
                        estimateCost model tokens)
                  | none => false) = true
              · simp only [if_pos h7]
                rcases hf : policy.fallback_to_local <;> simp [hf]
              · simp only [if_neg h7]
                by_cases h8 : policy.monthly_budget_usd <
                    (resetDailyIfNeeded st nowDate).monthlySpend +
                      estimateCost model tokens
                · simp only [if_pos h8]
                  rcases hf : policy.fallback_to_local <;> simp [hf]
                · simp only [if_neg h8]
                  cases rerr with
                  | some e => exact Or.inr (Or.inr ⟨w2, rfl⟩)
                  | none =>
                    by_cases h10 : (lookupProviderPolicy policy provider).require_reason =
                          true ∧ (reason = none ∨ reason = some "")
                    · simp only [if_pos h10]
                      exact Or.inr (Or.inr ⟨w2, rfl⟩)
                    · simp only [if_neg h10]
                      exact Or.inr (Or.inr ⟨w2, rfl⟩)

/-- A tenant policy consisting only of the pydantic defaults. -/
def defaultTenantPolicy : TenantPolicy :=
  { tenant_id := "acme" }

/-- An enforcer state carrying five dollars of daily spend last reset on
day 0. -/
def rolloverState : EnforcerState :=
  { dailySpend := 5, lastDailyReset := 0 }

/-- An enforcer state carrying five dollars of monthly spend. -/
def spentState : EnforcerState :=
  { monthlySpend := 5 }

/-- Counterexample to C7 as stated: a `validate_request` call on the next
UTC day (an operation that is not an explicit reset) lowers the daily spend
counter from 5 to 0, and a `record_usage` call with a negative `cost_usd`
(the field is unvalidated) lowers the monthly spend counter. -/
theorem claim_C7_counterexample :
    (validateRequest defaultTenantPolicy rolloverState 1 0 "openai" "gpt-4o-mini"
        100 none).2.dailySpend < rolloverState.dailySpend ∧
    (recordUsage defaultTenantPolicy spentState "openai" "gpt-4o-mini" 10 10 (-1) 0
        true none 0).monthlySpend < spentState.monthlySpend := by
  constructor
  · norm_num [validateRequest, defaultTenantPolicy, rolloverState, lookupProviderPolicy,
      resetDailyIfNeeded, checkRateLimits, estimateCost, estimateCostRatio,
      modelCosts, modelCostTiers, pyInt, Int.tdiv]
  · norm_num [recordUsage, defaultTenantPolicy, spentState]

/-- C7 (amended): `record_usage` with a nonnegative cost never lowers the
monthly or daily spend counters; `validate_request` never changes the
monthly counter, and changes the daily counter only by resetting it to zero
when it observes a UTC date later than the last daily reset.  (The
amendments: a negative `cost_usd` passed to `record_usage` lowers both
counters, and the automatic daily rollover reset inside `validate_request`
lowers the daily counter without any explicit reset call.) -/
theorem claim_C7 :
    (∀ (policy : TenantPolicy) (st : EnforcerState) (provider model : String)
        (tokensInput tokensOutput : Nat) (costUsd latencyMs : ℚ) (success : Bool)
        (reason : Option String) (timestamp : ℚ), 0 ≤ costUsd →
        st.monthlySpend ≤ (recordUsage policy st provider model tokensInput
          tokensOutput costUsd latencyMs success reason timestamp).monthlySpend ∧
        st.dailySpend ≤ (recordUsage policy st provider model tokensInput
          tokensOutput costUsd latencyMs success reason timestamp).dailySpend) ∧
    (∀ (policy : TenantPolicy) (st : EnforcerState) (nowDate : ℤ) (nowTime : ℚ)
        (provider model : String) (tokens : Nat) (reason : Option String),
        (validateRequest policy st nowDate nowTime provider model tokens
            reason).2.monthlySpend = st.monthlySpend ∧
        ((validateRequest policy st nowDate nowTime provider model tokens
            reason).2.dailySpend = st.dailySpend ∨
         (st.lastDailyReset < nowDate ∧
          (validateRequest policy st nowDate nowTime provider model tokens
            reason).2.dailySpend = 0))) := by
  constructor
  · intro policy st provider model tokIn tokOut costUsd latencyMs success reason
      timestamp hc
    unfold recordUsage
    split_ifs
    · exact ⟨le_refl _, le_refl _⟩
    · exact ⟨le_add_of_nonneg_right hc, le_add_of_nonneg_right hc⟩
  · intro policy st nowDate nowTime provider model tokens reason
    rcases validate_state_shape policy st nowDate nowTime provider model tokens reason
      with h | h | ⟨w, h⟩ <;> rw [h]
    · exact ⟨rfl, Or.inl rfl⟩
    · unfold resetDailyIfNeeded
      split_ifs with hd
      · exact ⟨rfl, Or.inr ⟨hd, rfl⟩⟩
      · exact ⟨rfl, Or.inl rfl⟩
    · simp only []
      show (resetDailyIfNeeded st nowDate).monthlySpend = st.monthlySpend ∧
        ((resetDailyIfNeeded st nowDate).dailySpend = st.dailySpend ∨
         (st.lastDailyReset < nowDate ∧ (resetDailyIfNeeded st nowDate).dailySpend = 0))
      unfold resetDailyIfNeeded
      split_ifs with hd
      · exact ⟨rfl, Or.inr ⟨hd, rfl⟩⟩
      · exact ⟨rfl, Or.inl rfl⟩

/-- Witness for C7: a `record_usage` call with a two-dollar cost leaves the
spend counters at or above their previous values. -/
theorem claim_C7_witness :
    spentState.monthlySpend ≤ (recordUsage defaultTenantPolicy spentState "openai"
      "gpt-4o-mini" 10 10 2 0 true none 0).monthlySpend ∧
    spentState.dailySpend ≤ (recordUsage defaultTenantPolicy spentState "openai"
      "gpt-4o-mini" 10 10 2 0 true none 0).dailySpend :=
  claim_C7.1 defaultTenantPolicy spentState "openai" "gpt-4o-mini" 10 10 2 0 true
    none 0 (by norm_num)

/-- The spec's concrete budget scenario: monthly budget of one dollar, a
recorded spend of ninety-five cents, no fallback. -/
def budgetScenarioPolicy : TenantPolicy :=
  { tenant_id := "acme"
    monthly_budget_usd := 1
    fallback_to_local := false }

/-- The enforcer state after `$0.95` of recorded spend. -/
def budgetScenarioState : EnforcerState :=
  { monthlySpend := 95/100 }

/-- Witness for C2: with `monthly_budget_usd = 1.0`, prior spend `0.95` and
a claude-3-opus request of 2000 tokens estimated at `$0.066`,
`validate_request` raises `BudgetExceededError` because
`0.95 + 0.066 > 1.00`. -/
theorem claim_C2_witness :
    (validateRequest budgetScenarioPolicy budgetScenarioState 0 0 "openai"
        "claude-3-opus" 2000 none).1 = .error .budgetExceeded := by
  have h := (claim_C2 budgetScenarioPolicy budgetScenarioState 0 0 "openai"
      "claude-3-opus" 2000 none
      (by
        refine ⟨rfl, ?_, ?_, rfl, ?_, ?_⟩ <;>
          norm_num [lookupProviderPolicy, budgetScenarioPolicy, estimateCost,
            estimateCostRatio, modelCosts, pyInt, Int.tdiv])).2
    (by rfl)
    (by norm_num [budgetScenarioPolicy, budgetScenarioState, estimateCost,
      estimateCostRatio, modelCosts, pyInt, Int.tdiv])
  simpa [budgetScenarioPolicy] using h

/-- The collector's consistency invariant: the primary history respects the
`max_history` bound, and each tenant's index list is exactly the primary
list restricted to that tenant (hence same membership and same relative
order, and nothing retained for a tenant outside its own list). -/
def TelemetryInvariant (c : TelemetryCollector) : Prop :=
  c.metrics.length ≤ c.maxHistory ∧
  ∀ t, c.byTenant t = c.metrics.filter (fun x => decide (x.tenant_id = t))

/-- C5: `record` preserves the collector invariant — after every call the
primary history holds at most `max_history` entries and the per-tenant
index stays consistent with it — and when the bound is exceeded exactly the
oldest entry is evicted (the new history is the tail of the appended
list), the evicted entry disappearing from its tenant's list as well. -/
theorem claim_C5 (c : TelemetryCollector) (m : LLMRequestMetrics)
    (h : TelemetryInvariant c) :
    TelemetryInvariant (record c m) ∧
    (record c m).metrics =
      (if c.maxHistory < (c.metrics ++ [adjustCost m]).length then
        (c.metrics ++ [adjustCost m]).tail
      else c.metrics ++ [adjustCost m]) := by
  obtain ⟨hlen, hbt⟩ := h
  have hbt2 : ∀ t, (if t = (adjustCost m).tenant_id then
      c.byTenant t ++ [adjustCost m] else c.byTenant t) =
      (c.metrics ++ [adjustCost m]).filter (fun x => decide (x.tenant_id = t)) := by
    intro t
    rw [List.filter_append]
    by_cases ht : t = (adjustCost m).tenant_id
    · rw [if_pos ht, hbt t, ht]
      simp [List.filter]
    · rw [if_neg ht, hbt t]
      have hne : ¬((adjustCost m).tenant_id = t) := fun hh => ht hh.symm
      simp [List.filter, hne]
  unfold TelemetryInvariant record
  by_cases hov : c.maxHistory < (c.metrics ++ [adjustCost m]).length
  · simp only [if_pos hov]
    cases hcm : c.metrics with
    | nil =>
      rw [hcm] at hov hlen hbt2
      simp only [List.nil_append] at hov hbt2 ⊢
      have hmax : c.maxHistory = 0 := by
        simp at hov
        omega
      refine ⟨⟨by simp, ?_⟩, by simp⟩
      intro t
      have h0 := hbt2 (adjustCost m).tenant_id
      simp at h0
      by_cases ht : t = (adjustCost m).tenant_id
      · simp [ht, h0]
      · have h1 := hbt2 t
        rw [if_neg ht] at h1
        have hne : ¬((adjustCost m).tenant_id = t) := fun hh => ht hh.symm
        simp [hne] at h1
        simp [ht, h1, hne]
    | cons a as =>
      rw [hcm] at hov hlen hbt2
      simp only [List.cons_append] at hov hbt2 ⊢
      have hhead := hbt2 a.tenant_id
      rw [List.filter_cons] at hhead
      simp only [decide_eq_true_eq, if_pos rfl] at hhead
      constructor
      · constructor
        · have hr : (as ++ [adjustCost m]).length = as.length + 1 := by simp
          simp only [List.length_cons] at hlen
          omega
        · intro t
          by_cases ht : t = a.tenant_id
          · subst ht
            simp only [if_pos rfl, hhead]
            simp
          · simp only [if_neg ht]
            have h1 := hbt2 t
            rw [List.filter_cons] at h1
            have hne : ¬(a.tenant_id = t) := fun hh => ht hh.symm
            simp only [decide_eq_true_eq, if_neg hne] at h1
            simp [h1]
      · simp
  · simp only [if_neg hov]
    refine ⟨⟨?_, fun t => hbt2 t⟩, trivial⟩
    simpa using not_lt.mp hov

/-- A concrete request metric: 1000 input and 1000 output tokens against
openai's gpt-4o, 50 ms latency, recorded cost zero, timestamp 100. -/
def demoMetric : LLMRequestMetrics :=
  { request_id := "r1"
    tenant_id := "t1"
    provider := "openai"
    model := "gpt-4o"
    input_tokens := 1000
    output_tokens := 1000
    total_tokens := 2000
    latency_ms := 50
    timestamp := 100 }

/-- Witness for C5: recording one metric into a fresh collector preserves
the invariant and appends without eviction. -/
theorem claim_C5_witness :
    TelemetryInvariant (record {} demoMetric) ∧
    (record {} demoMetric).metrics =
      (if ({} : TelemetryCollector).maxHistory <
          (({} : TelemetryCollector).metrics ++ [adjustCost demoMetric]).length then
        (({} : TelemetryCollector).metrics ++ [adjustCost demoMetric]).tail
      else ({} : TelemetryCollector).metrics ++ [adjustCost demoMetric]) :=
  claim_C5 {} demoMetric ⟨by simp, fun t => by simp⟩

/-- C6: when `record` receives metrics with `cost_usd = 0` and a nonzero
total token count, the metric it stores (still the newest history entry,
given a positive `max_history`) carries cost
`(input_tokens * input_rate + output_tokens * output_rate) / 1000` from the
pricing-table lookup, and cost `0.0` when the lookup finds nothing. -/
theorem claim_C6 (c : TelemetryCollector) (m : LLMRequestMetrics)
    (h0 : 0 < c.maxHistory) (h1 : m.cost_usd = 0) (h2 : 0 < m.total_tokens) :
    (record c m).metrics.getLast? = some (adjustCost m) ∧
    (∀ inputRate outputRate,
      getModelPricing m.provider m.model = some (inputRate, outputRate) →
      (adjustCost m).cost_usd =
        ((m.input_tokens : ℚ) * inputRate + (m.output_tokens : ℚ) * outputRate) /
          1000) ∧
    (getModelPricing m.provider m.model = none → (adjustCost m).cost_usd = 0) := by
  refine ⟨?_, ?_, ?_⟩
  · unfold record
    by_cases hov : c.maxHistory < (c.metrics ++ [adjustCost m]).length
    · simp only [if_pos hov]
      cases hcm : c.metrics with
      | nil =>
        exfalso
        rw [hcm] at hov
        simp at hov
        omega
      | cons a as =>
        simp [List.getLast?_concat]
    · simp only [if_neg hov]
      simp [List.getLast?_concat]
  · intro inputRate outputRate hpr
    unfold adjustCost
    rw [if_pos ⟨h1, h2⟩]
    simp [calculateCost, hpr]
  · intro hpr
    unfold adjustCost
    rw [if_pos ⟨h1, h2⟩]
    simp [calculateCost, hpr]

/-- Witness for C6: the gpt-4o metric with zero recorded cost is stored with
the pricing-table cost filled in. -/
theorem claim_C6_witness :
    (record {} demoMetric).metrics.getLast? = some (adjustCost demoMetric) ∧
    (∀ inputRate outputRate,
      getModelPricing demoMetric.provider demoMetric.model =
        some (inputRate, outputRate) →
      (adjustCost demoMetric).cost_usd =
        ((demoMetric.input_tokens : ℚ) * inputRate +
          (demoMetric.output_tokens : ℚ) * outputRate) / 1000) ∧
    (getModelPricing demoMetric.provider demoMetric.model = none →
      (adjustCost demoMetric).cost_usd = 0) :=
  claim_C6 {} demoMetric (by norm_num) rfl (by norm_num [demoMetric])

/-- Every field of an `AggregatedMetrics` except the period bounds. -/
def statsBody (a : AggregatedMetrics) :=
  (a.tenant_id, a.total_requests, a.successful_requests, a.failed_requests,
   a.cached_requests, a.total_input_tokens, a.total_output_tokens, a.total_cost_usd,
   a.latency_p50, a.latency_p95, a.latency_p99, a.latency_avg,
   a.by_provider, a.by_model, a.errors_by_type)

/-- A collector holding exactly one metric, timestamped 100. -/
def c8Collector : TelemetryCollector :=
  { metrics := [demoMetric]
    byTenant := fun t => if t = "t1" then [demoMetric] else [] }

/-- Counterexample to C8 as stated: two `get_stats` calls with the same
period (`"1m"`) and the same tenant filter but observed at different
current times (150 and 170) disagree — `period_end` necessarily differs,
and the metric at timestamp 100 lies inside the first call's window
(cutoff 90) but outside the second's (cutoff 110), so even
`total_requests` differs (1 versus 0). -/
theorem claim_C8_counterexample :
    getStats c8Collector "1m" none 150 ≠ getStats c8Collector "1m" none 170 := by
  intro h
  have h2 := congrArg (Option.map (fun a => a.total_requests)) h
  have hp : parsePeriod "1m" = some 60 := by
    simp +decide [parsePeriod, pyParseInt, parseNatDigits, List.getLast?]
  have d1 : ((150 : ℚ) - 60 ≤ 100) := by norm_num
  have d2 : ¬((170 : ℚ) - 60 ≤ 100) := by norm_num
  simp only [getStats, hp, c8Collector, demoMetric, tenantTruthy, List.filter,
    decide_eq_true d1, decide_eq_false d2] at h2
  simp at h2

/-- C8 (amended): two `get_stats` calls with the same period string and the
same tenant filter, with no record in between, agree on every field except
`period_start` and `period_end`, provided no retained metric's timestamp
falls between the two calls' cutoffs; calls observed at the same instant
agree on everything. -/
theorem claim_C8 (c : TelemetryCollector) (period : String)
    (tenantId : Option String) (t1 t2 delta : ℚ)
    (hp : parsePeriod period = some delta)
    (hsame : ∀ x ∈ (if tenantTruthy tenantId then c.byTenant (tenantId.getD "")
        else c.metrics), (t1 - delta ≤ x.timestamp ↔ t2 - delta ≤ x.timestamp)) :
    ∃ r1 r2, getStats c period tenantId t1 = some r1 ∧
      getStats c period tenantId t2 = some r2 ∧ statsBody r1 = statsBody r2 := by
  have hfeq : (if tenantTruthy tenantId then c.byTenant (tenantId.getD "")
        else c.metrics).filter (fun x => decide (t1 - delta ≤ x.timestamp)) =
      (if tenantTruthy tenantId then c.byTenant (tenantId.getD "")
        else c.metrics).filter (fun x => decide (t2 - delta ≤ x.timestamp)) := by
    apply List.filter_congr
    intro x hx
    exact decide_eq_decide.mpr (hsame x hx)
  simp only [getStats, hp]
  rw [hfeq]
  by_cases hL : (if tenantTruthy tenantId then c.byTenant (tenantId.getD "")
      else c.metrics).filter (fun x => decide (t2 - delta ≤ x.timestamp)) = []
  · rw [if_pos hL, if_pos hL]
    exact ⟨_, _, rfl, rfl, rfl⟩
  · rw [if_neg hL, if_neg hL]
    exact ⟨_, _, rfl, rfl, rfl⟩

/-- Witness for C8: two calls at the same instant (150) agree on every
non-period field. -/
theorem claim_C8_witness :
    ∃ r1 r2, getStats c8Collector "1m" none 150 = some r1 ∧
      getStats c8Collector "1m" none 150 = some r2 ∧ statsBody r1 = statsBody r2 :=
  claim_C8 c8Collector "1m" none 150 150 60
    (by simp +decide [parsePeriod, pyParseInt, parseNatDigits, List.getLast?])
    (fun x _ => Iff.rfl)

end Netrun
